import Mathlib

/-!
Verification of the velocity-ramping / command-rate control core of `src/fpv.py`
(a keyboard FPV front end for a Tello quadcopter).

The Python source is shallowly embedded: the four velocity attributes of `Drone`
become a structure of integers, `getattr`/`setattr` by attribute name become an
axis-indexed getter/setter, and the stateful methods become pure state-passing
functions. Side-effecting calls to the external command sink
(`send_rc_control`, `land`, `takeoff`, `emergency`, `streamoff`, `end`) are
recorded in an explicit trace of `Command` events.
-/

/-- The four velocity attributes of `Drone` (`left_right_velocity`,
`forward_backward_velocity`, `up_down_velocity`, `yaw_velocity`),
each a signed integer. -/
structure DroneState where
  left_right_velocity : Int
  forward_backward_velocity : Int
  up_down_velocity : Int
  yaw_velocity : Int
  deriving DecidableEq, Repr

/-- The attribute names passed to `getattr`/`setattr` in
`_gain_velocity_plus` / `_gain_velocity_minus` / `_waste_velocity`. -/
inductive Axis
  | left_right
  | forward_backward
  | up_down
  | yaw
  deriving DecidableEq, Repr

/-- `getattr(self, velocity)` for a velocity attribute name. -/
def getVel (s : DroneState) : Axis → Int
  | .left_right => s.left_right_velocity
  | .forward_backward => s.forward_backward_velocity
  | .up_down => s.up_down_velocity
  | .yaw => s.yaw_velocity

/-- `setattr(self, velocity, vel)` for a velocity attribute name. -/
def setVel (s : DroneState) : Axis → Int → DroneState
  | .left_right, v => { s with left_right_velocity := v }
  | .forward_backward, v => { s with forward_backward_velocity := v }
  | .up_down, v => { s with up_down_velocity := v }
  | .yaw, v => { s with yaw_velocity := v }

/-- Value computation of `Drone._gain_velocity_plus`:
`vel += 3; vel = max(0, min(vel, max_vel))`. -/
def gainVelocityPlusVal (vel max_vel : Int) : Int :=
  max 0 (min (vel + 3) max_vel)

/-- Value computation of `Drone._gain_velocity_minus`:
`vel -= 3; vel = max(min_vel, min(vel, 0))`. -/
def gainVelocityMinusVal (vel min_vel : Int) : Int :=
  max min_vel (min (vel - 3) 0)

/-- Value computation of `Drone._waste_velocity`:
`if vel > 0: vel -= 10; vel = max(0, vel) else: vel += 10; vel = min(0, vel)`. -/
def wasteVelocityVal (vel : Int) : Int :=
  if 0 < vel then max 0 (vel - 10) else min 0 (vel + 10)

/-- `Drone._gain_velocity_plus(velocity, max_vel)`. -/
def Drone._gain_velocity_plus (s : DroneState) (velocity : Axis) (max_vel : Int) :
    DroneState :=
  setVel s velocity (gainVelocityPlusVal (getVel s velocity) max_vel)

/-- `Drone._gain_velocity_minus(velocity, min_vel)`. -/
def Drone._gain_velocity_minus (s : DroneState) (velocity : Axis) (min_vel : Int) :
    DroneState :=
  setVel s velocity (gainVelocityMinusVal (getVel s velocity) min_vel)

/-- `Drone._waste_velocity(velocity)`. -/
def Drone._waste_velocity (s : DroneState) (velocity : Axis) : DroneState :=
  setVel s velocity (wasteVelocityVal (getVel s velocity))

/-- `Drone.right`. -/
def Drone.right (s : DroneState) : DroneState :=
  Drone._gain_velocity_plus s .left_right 100

/-- `Drone.left`. -/
def Drone.left (s : DroneState) : DroneState :=
  Drone._gain_velocity_minus s .left_right (-100)

/-- `Drone.waste_left_right`. -/
def Drone.waste_left_right (s : DroneState) : DroneState :=
  Drone._waste_velocity s .left_right

/-- `Drone.forward`. -/
def Drone.forward (s : DroneState) : DroneState :=
  Drone._gain_velocity_plus s .forward_backward 100

/-- `Drone.backward`. -/
def Drone.backward (s : DroneState) : DroneState :=
  Drone._gain_velocity_minus s .forward_backward (-100)

/-- `Drone.waste_forward_backward`. -/
def Drone.waste_forward_backward (s : DroneState) : DroneState :=
  Drone._waste_velocity s .forward_backward

/-- `Drone.up`. -/
def Drone.up (s : DroneState) : DroneState :=
  Drone._gain_velocity_plus s .up_down 100

/-- `Drone.down`. -/
def Drone.down (s : DroneState) : DroneState :=
  Drone._gain_velocity_minus s .up_down (-100)

/-- `Drone.waste_up_down`. -/
def Drone.waste_up_down (s : DroneState) : DroneState :=
  Drone._waste_velocity s .up_down

/-- `Drone.ccw` (gains the yaw axis in the positive direction). -/
def Drone.ccw (s : DroneState) : DroneState :=
  Drone._gain_velocity_plus s .yaw 100

/-- `Drone.cw` (gains the yaw axis in the negative direction). -/
def Drone.cw (s : DroneState) : DroneState :=
  Drone._gain_velocity_minus s .yaw (-100)

/-- `Drone.waste_yaw`. -/
def Drone.waste_yaw (s : DroneState) : DroneState :=
  Drone._waste_velocity s .yaw

/-- `Drone.stop`: sets all four velocity attributes to 0. -/
def Drone.stop (_s : DroneState) : DroneState :=
  { left_right_velocity := 0
    forward_backward_velocity := 0
    up_down_velocity := 0
    yaw_velocity := 0 }

/-- Reading the four axis fields at once (the spec's `snapshot()`), in the order
`update_rc` reads them: left/right, forward/backward, up/down, yaw. -/
def snapshot (s : DroneState) : Int × Int × Int × Int :=
  (s.left_right_velocity, s.forward_backward_velocity,
   s.up_down_velocity, s.yaw_velocity)

/-- The all-zero state the controller starts in (`Drone.__init__` calls
`self.stop()` before the first `update_rc`). -/
def initState : DroneState :=
  { left_right_velocity := 0
    forward_backward_velocity := 0
    up_down_velocity := 0
    yaw_velocity := 0 }

/-- Calls the `Drone` makes on the external command sink (`djitellopy`):
`send_rc_control` (the per-tick flush), the one-shot actions, and the
teardown calls `streamoff` / `end`. -/
inductive Command
  | rc (left_right forward_backward up_down yaw : Int)
  | land
  | takeoff
  | emergency
  | streamoff
  | end_connection
  deriving DecidableEq, Repr

/-- `Drone.update_rc`: sends the current four axis values as one rc command. -/
def Drone.update_rc (s : DroneState) : List Command :=
  [Command.rc s.left_right_velocity s.forward_backward_velocity
    s.up_down_velocity s.yaw_velocity]

/-- `pg.key.get_pressed()` restricted to the eight direction keys read by
`App.on_event`: w/s (forward/backward), a/d (left/right), space/c (up/down),
q/e (cw/ccw). -/
structure Keys where
  w : Bool
  s : Bool
  a : Bool
  d : Bool
  space : Bool
  c : Bool
  q : Bool
  e : Bool
  deriving DecidableEq, Repr

/-- The discrete pygame events `App.on_event` inspects. -/
inductive PgEvent
  | quit
  | keyup_escape
  | keyup_0
  | keyup_1
  | keyup_delete
  | other
  deriving DecidableEq, Repr

/-- The state `App.run` threads through ticks: the `_running` flag and the
drone's velocity state. -/
structure AppState where
  _running : Bool
  drone : DroneState
  deriving DecidableEq, Repr

/-- One step of the `for event in pg.event.get()` loop in `App.on_event`,
threading the app state and the trace of sink commands. -/
def processEvent (st : AppState × List Command) (ev : PgEvent) :
    AppState × List Command :=
  match ev with
  | .quit => ({ st.1 with _running := false }, st.2)
  | .keyup_escape => ({ st.1 with _running := false }, st.2)
  | .keyup_0 => (st.1, st.2 ++ [Command.land])
  | .keyup_1 => (st.1, st.2 ++ [Command.takeoff])
  | .keyup_delete => (st.1, st.2 ++ [Command.emergency])
  | .other => st

/-- The held-key dispatch of `App.on_event`: one if/elif/else chain per axis
pair, in source order (w/s, a/d, space/c, q/e). -/
def keyDispatch (keys : Keys) (s : DroneState) : DroneState :=
  let s1 := if keys.w then Drone.forward s
    else if keys.s then Drone.backward s
    else Drone.waste_forward_backward s
  let s2 := if keys.a then Drone.left s1
    else if keys.d then Drone.right s1
    else Drone.waste_left_right s1
  let s3 := if keys.space then Drone.up s2
    else if keys.c then Drone.down s2
    else Drone.waste_up_down s2
  if keys.q then Drone.cw s3
  else if keys.e then Drone.ccw s3
  else Drone.waste_yaw s3

/-- `App.on_event`: drain the discrete events, then run the held-key dispatch. -/
def on_event (evs : List PgEvent) (keys : Keys) (st : AppState) :
    AppState × List Command :=
  let r := evs.foldl processEvent (st, [])
  ({ r.1 with drone := keyDispatch keys r.1.drone }, r.2)

/-- One iteration of the `while self._running` body of `App.run`:
`clock.tick`, `on_info` and `on_render` touch no sink; `on_event` may emit
one-shot action commands; `update_rc` flushes the current axis values. -/
def runTick (evs : List PgEvent) (keys : Keys) (st : AppState) :
    AppState × List Command :=
  let r := on_event evs keys st
  (r.1, r.2 ++ Drone.update_rc r.1.drone)

/-- The `while self._running` loop of `App.run`, driven by a list of per-tick
inputs (the modelled horizon): each tick runs only while `_running` holds. -/
def runSteps : List (List PgEvent × Keys) → AppState → AppState × List Command
  | [], st => (st, [])
  | t :: rest, st =>
    if st._running then
      let r := runTick t.1 t.2 st
      let r2 := runSteps rest r.1
      (r2.1, r.2 ++ r2.2)
    else (st, [])

/-- Number of loop iterations `App.run` executes on the given input horizon. -/
def iterationsRun : List (List PgEvent × Keys) → AppState → Nat
  | [], _ => 0
  | t :: rest, st =>
    if st._running then 1 + iterationsRun rest (runTick t.1 t.2 st).1
    else 0

/-- Whether a sink command is an rc flush (`send_rc_control`). -/
def isRc : Command → Bool
  | .rc _ _ _ _ => true
  | _ => false

/-- Number of rc flushes in a sink trace. -/
def countRc (cmds : List Command) : Nat :=
  (cmds.filter isRc).length

/-- Outcome of external calls during teardown: whether `streamoff` and `end`
return normally (`true`) or raise (`false`). -/
structure ReleaseEnv where
  streamoff_ok : Bool
  end_ok : Bool
  deriving DecidableEq, Repr

/-- `Drone.release`: `streamoff(); stop(); update_rc(); end()`, with the two
external calls allowed to raise. The Bool is `true` iff release returned
normally; the trace lists the sink calls completed before any raise. The
source wraps nothing in try/except, so a raise aborts the remaining steps. -/
def Drone.release (env : ReleaseEnv) (s : DroneState) :
    Bool × DroneState × List Command :=
  if env.streamoff_ok then
    let s1 := Drone.stop s
    let cmds := Command.streamoff :: Drone.update_rc s1
    if env.end_ok then (true, s1, cmds ++ [Command.end_connection])
    else (false, s1, cmds)
  else (false, s, [])

/-- `App.on_exit`: releases the drone (`pg.quit` touches no sink). -/
def on_exit (env : ReleaseEnv) (st : AppState) : Bool × DroneState × List Command :=
  Drone.release env st.drone

/-- `time.localtime().tm_sec` of a wall-clock instant given in milliseconds
since the epoch: the current second-of-minute. -/
def tm_sec (t_ms : Nat) : Nat :=
  t_ms / 1000 % 60

/-- The state of `Info`: `last_upd_time`, the `tm_sec` value stored at init and
at each refresh. -/
structure InfoState where
  last_upd_time : Nat
  deriving DecidableEq, Repr

/-- `Info.update` at wall-clock time `now_ms`: runs `_update` (the refresh) and
stores the current `tm_sec` iff that value differs from the stored one. Returns
the new state and whether the refresh ran. -/
def Info.update (now_ms : Nat) (st : InfoState) : InfoState × Bool :=
  let now := tm_sec now_ms
  if now ≠ st.last_upd_time then ({ last_upd_time := now }, true) else (st, false)

/-- The velocity-controller operations as the wrappers invoke them: gains with
limits ±100, decay, and `stop`. -/
inductive Op
  | gain_plus (a : Axis)
  | gain_minus (a : Axis)
  | waste (a : Axis)
  | stop
  deriving DecidableEq, Repr

/-- Apply one controller operation. -/
def applyOp (s : DroneState) : Op → DroneState
  | .gain_plus a => Drone._gain_velocity_plus s a 100
  | .gain_minus a => Drone._gain_velocity_minus s a (-100)
  | .waste a => Drone._waste_velocity s a
  | .stop => Drone.stop s

/-- Run a sequence of controller operations from the initial all-zero state. -/
def runOps (ops : List Op) : DroneState :=
  ops.foldl applyOp initState

/-- A single axis value is within the clamp range. -/
def inRange (v : Int) : Prop :=
  -100 ≤ v ∧ v ≤ 100

/-- All four axis values are within the clamp range. -/
def stateInRange (s : DroneState) : Prop :=
  inRange s.left_right_velocity ∧ inRange s.forward_backward_velocity ∧
  inRange s.up_down_velocity ∧ inRange s.yaw_velocity

instance (v : Int) : Decidable (inRange v) := by
  unfold inRange; infer_instance

instance (s : DroneState) : Decidable (stateInRange s) := by
  unfold stateInRange; infer_instance

/-- Which of the three per-axis operations a key pair selects. -/
inductive AxisAction
  | gain_plus
  | gain_minus
  | waste
  deriving DecidableEq, Repr

/-- The w/s if/elif/else chain of `App.on_event`: w → `forward` (gain_plus),
elif s → `backward` (gain_minus), else decay. -/
def dispatch_forward_backward (w s : Bool) : AxisAction :=
  if w then .gain_plus else if s then .gain_minus else .waste

/-- The a/d chain: a → `left` (gain_minus), elif d → `right` (gain_plus),
else decay. -/
def dispatch_left_right (a d : Bool) : AxisAction :=
  if a then .gain_minus else if d then .gain_plus else .waste

/-- The space/c chain: space → `up` (gain_plus), elif c → `down` (gain_minus),
else decay. -/
def dispatch_up_down (space c : Bool) : AxisAction :=
  if space then .gain_plus else if c then .gain_minus else .waste

/-- The q/e chain: q → `cw` (gain_minus), elif e → `ccw` (gain_plus),
else decay. -/
def dispatch_yaw (q e : Bool) : AxisAction :=
  if q then .gain_minus else if e then .gain_plus else .waste

/-- Apply a selected action to one axis with the wrappers' limits. -/
def applyAction (act : AxisAction) (s : DroneState) (a : Axis) : DroneState :=
  match act with
  | .gain_plus => Drone._gain_velocity_plus s a 100
  | .gain_minus => Drone._gain_velocity_minus s a (-100)
  | .waste => Drone._waste_velocity s a

/-- The held-key dispatch is exactly the four per-pair dispatch decisions
applied to the four axes in source order. -/
theorem keyDispatch_eq_dispatch (keys : Keys) (s : DroneState) :
    keyDispatch keys s =
      applyAction (dispatch_yaw keys.q keys.e)
        (applyAction (dispatch_up_down keys.space keys.c)
          (applyAction (dispatch_left_right keys.a keys.d)
            (applyAction (dispatch_forward_backward keys.w keys.s) s
              .forward_backward)
            .left_right)
          .up_down)
        .yaw := by
  obtain ⟨w, ks, a, d, sp, c, q, e⟩ := keys
  cases w <;> cases ks <;> cases a <;> cases d <;> cases sp <;> cases c <;>
    cases q <;> cases e <;> rfl

theorem countRc_append (l1 l2 : List Command) :
    countRc (l1 ++ l2) = countRc l1 + countRc l2 := by
  simp [countRc, List.filter_append]

theorem countRc_processEvent_fold (evs : List PgEvent) :
    ∀ (st : AppState) (acc : List Command),
      countRc (evs.foldl processEvent (st, acc)).2 = countRc acc := by
  induction evs with
  | nil => intro st acc; rfl
  | cons ev rest ih =>
    intro st acc
    cases ev <;> simp only [List.foldl_cons, processEvent] <;> rw [ih] <;>
      simp [countRc_append, countRc, isRc]

theorem countRc_on_event (evs : List PgEvent) (keys : Keys) (st : AppState) :
    countRc (on_event evs keys st).2 = 0 := by
  unfold on_event
  simpa using countRc_processEvent_fold evs st []

theorem applyOp_preserves (s : DroneState) (o : Op) (h : stateInRange s) :
    stateInRange (applyOp s o) := by
  obtain ⟨lr, fb, ud, yw⟩ := s
  simp only [stateInRange, inRange] at h
  cases o with
  | gain_plus a =>
    cases a <;>
      simp only [applyOp, Drone._gain_velocity_plus, gainVelocityPlusVal,
        getVel, setVel, stateInRange, inRange] <;> omega
  | gain_minus a =>
    cases a <;>
      simp only [applyOp, Drone._gain_velocity_minus, gainVelocityMinusVal,
        getVel, setVel, stateInRange, inRange] <;> omega
  | waste a =>
    cases a <;>
      simp only [applyOp, Drone._waste_velocity, wasteVelocityVal,
        getVel, setVel, stateInRange, inRange] <;> split <;> omega
  | stop =>
    simp only [applyOp, Drone.stop, stateInRange, inRange]
    omega

theorem foldl_applyOp_preserves (ops : List Op) :
    ∀ s : DroneState, stateInRange s → stateInRange (ops.foldl applyOp s) := by
  induction ops with
  | nil => intro s h; exact h
  | cons o rest ih => intro s h; exact ih (applyOp s o) (applyOp_preserves s o h)

theorem wasteVelocityVal_iter_zero (k : Nat) : wasteVelocityVal^[k] 0 = 0 := by
  induction k with
  | zero => rfl
  | succ k ih =>
    rw [Function.iterate_succ_apply]
    have h : wasteVelocityVal 0 = 0 := by decide
    rw [h]
    exact ih

theorem waste_iter_bound (k : Nat) :
    ∀ v : Int, -(10 * (k : Int)) ≤ v → v ≤ 10 * (k : Int) →
      wasteVelocityVal^[k] v = 0 := by
  induction k with
  | zero =>
    intro v h1 h2
    simp only [Function.iterate_zero, id_eq]
    omega
  | succ k ih =>
    intro v h1 h2
    rw [Function.iterate_succ_apply]
    refine ih _ ?_ ?_ <;> unfold wasteVelocityVal <;> split <;> omega

/-- C1 is false of the code: with both `w` and `s` held (all other keys up),
the if/elif/else chain of `App.on_event` fires its first branch, so the
forward/backward axis gets `gain_plus` (0 becomes 3), not decay
(which would leave 0). -/
theorem C1_counterexample :
    dispatch_forward_backward true true = AxisAction.gain_plus ∧
    dispatch_forward_backward true true ≠ AxisAction.waste ∧
    (keyDispatch ⟨true, true, false, false, false, false, false, false⟩
      initState).forward_backward_velocity = 3 ∧
    (Drone.waste_forward_backward initState).forward_backward_velocity = 0 := by
  decide

/-- C1 amended: on every tick, for each axis pair the Input Mapper invokes
decay iff neither direction key of the pair is held; when both are held, the
first-checked key's branch fires (gain_plus for forward/backward and up/down,
gain_minus for left/right and yaw), never decay. -/
theorem C1_amended :
    (∀ w s : Bool,
      dispatch_forward_backward w s = AxisAction.waste ↔ w = false ∧ s = false) ∧
    (∀ a d : Bool,
      dispatch_left_right a d = AxisAction.waste ↔ a = false ∧ d = false) ∧
    (∀ sp c : Bool,
      dispatch_up_down sp c = AxisAction.waste ↔ sp = false ∧ c = false) ∧
    (∀ q e : Bool,
      dispatch_yaw q e = AxisAction.waste ↔ q = false ∧ e = false) ∧
    dispatch_forward_backward true true = AxisAction.gain_plus ∧
    dispatch_left_right true true = AxisAction.gain_minus ∧
    dispatch_up_down true true = AxisAction.gain_plus ∧
    dispatch_yaw true true = AxisAction.gain_minus := by
  decide

/-- C2: from the all-zero initial state, every sequence of gain_plus,
gain_minus, decay and stop operations keeps all four axis values within
[-100, 100] after every call (every `ops` prefix is itself an `ops`). -/
theorem C2_bounds (ops : List Op) : stateInRange (runOps ops) :=
  foldl_applyOp_preserves ops initState (by decide)

/-- C3: repeated decay reaches exactly 0 within 10 calls from any clamped
starting value and then stays at 0; decay never increases a value's magnitude
or changes its sign; from 5 one decay gives 0 (not -5); at 0 decay is a no-op;
from 100 the values are 100 - 10i for the first 10 calls (0 exactly at the
10th, 10 after the 9th). -/
theorem C3_decay :
    (∀ v : Int, -100 ≤ v → v ≤ 100 → wasteVelocityVal^[10] v = 0) ∧
    (∀ (k : Nat) (v : Int), -100 ≤ v → v ≤ 100 →
      wasteVelocityVal^[k + 10] v = 0) ∧
    (∀ v : Int, 0 ≤ v → 0 ≤ wasteVelocityVal v ∧ wasteVelocityVal v ≤ v) ∧
    (∀ v : Int, v ≤ 0 → v ≤ wasteVelocityVal v ∧ wasteVelocityVal v ≤ 0) ∧
    wasteVelocityVal 5 = 0 ∧ wasteVelocityVal 0 = 0 ∧
    (∀ i : Nat, i ≤ 10 → wasteVelocityVal^[i] 100 = 100 - 10 * (i : Int)) ∧
    wasteVelocityVal^[9] 100 = 10 := by
  refine ⟨?_, ?_, ?_, ?_, by decide, by decide, by decide, by decide⟩
  · intro v h1 h2
    exact waste_iter_bound 10 v (by omega) (by omega)
  · intro k v h1 h2
    rw [Function.iterate_add_apply, waste_iter_bound 10 v (by omega) (by omega)]
    exact wasteVelocityVal_iter_zero k
  · intro v h
    unfold wasteVelocityVal
    split <;> omega
  · intro v h
    unfold wasteVelocityVal
    split <;> omega

theorem C3_decay_witness : wasteVelocityVal^[10] 50 = 0 :=
  C3_decay.1 50 (by decide) (by decide)

/-- C5: stop followed by reading the four axis fields returns all zeros
regardless of the prior state. -/
theorem C5_stop_snapshot (s : DroneState) :
    snapshot (Drone.stop s) = (0, 0, 0, 0) := rfl

/-- C9 is false of the code: value -2 on the forward/backward axis is
reachable from the initial state (four gain_minus then one decay), and a
single gain_plus from -2 yields max 0 (-2 + 3) = 1, not 0. -/
theorem C9_counterexample :
    (runOps [Op.gain_minus .forward_backward, Op.gain_minus .forward_backward,
      Op.gain_minus .forward_backward, Op.gain_minus .forward_backward,
      Op.waste .forward_backward]).forward_backward_velocity = -2 ∧
    (Drone.forward ⟨0, -2, 0, 0⟩).forward_backward_velocity = 1 ∧
    gainVelocityPlusVal (-2) 100 = 1 ∧ (-2 : Int) < 0 ∧ (1 : Int) ≠ 0 := by
  decide

/-- C9 amended: for every negative axis value v, a single gain_positive call
yields max 0 (v + 3): exactly 0 when v ≤ -3, but v + 3 (that is 1 or 2) when
v is -2 or -1. -/
theorem C9_amended (v : Int) (hneg : v < 0) :
    gainVelocityPlusVal v 100 = max 0 (v + 3) := by
  unfold gainVelocityPlusVal
  omega

theorem C9_amended_witness : gainVelocityPlusVal (-5) 100 = max 0 (-5 + 3) :=
  C9_amended (-5) (by decide)

/-- C10: each of the three per-axis operations, applied to one axis, leaves
every other axis value unchanged, for every state and every limit argument. -/
theorem C10_frame (s : DroneState) (a b : Axis) (h : a ≠ b) (lim : Int) :
    getVel (Drone._gain_velocity_plus s a lim) b = getVel s b ∧
    getVel (Drone._gain_velocity_minus s a lim) b = getVel s b ∧
    getVel (Drone._waste_velocity s a) b = getVel s b := by
  cases a <;> cases b <;> first
    | exact absurd rfl h
    | exact ⟨rfl, rfl, rfl⟩

theorem C10_frame_witness :
    getVel (Drone._gain_velocity_plus ⟨1, 2, 3, 4⟩ .left_right 100) .yaw =
        getVel ⟨1, 2, 3, 4⟩ .yaw ∧
      getVel (Drone._gain_velocity_minus ⟨1, 2, 3, 4⟩ .left_right 100) .yaw =
        getVel ⟨1, 2, 3, 4⟩ .yaw ∧
      getVel (Drone._waste_velocity ⟨1, 2, 3, 4⟩ .left_right) .yaw =
        getVel ⟨1, 2, 3, 4⟩ .yaw :=
  C10_frame ⟨1, 2, 3, 4⟩ .left_right .yaw (by decide) 100

/-- C4: exactly one rc flush reaches the Command Sink on every loop iteration,
regardless of events, held keys and state: one per tick body, and over any
modelled horizon the total number of rc flushes equals the number of
iterations executed. -/
theorem C4_flush_per_tick :
    (∀ (evs : List PgEvent) (keys : Keys) (st : AppState),
      countRc (runTick evs keys st).2 = 1) ∧
    (∀ (ticks : List (List PgEvent × Keys)) (st : AppState),
      countRc (runSteps ticks st).2 = iterationsRun ticks st) := by
  have h1 : ∀ (evs : List PgEvent) (keys : Keys) (st : AppState),
      countRc (runTick evs keys st).2 = 1 := by
    intro evs keys st
    simp only [runTick]
    rw [countRc_append, countRc_on_event]
    rfl
  refine ⟨h1, ?_⟩
  intro ticks
  induction ticks with
  | nil => intro st; rfl
  | cons t rest ih =>
    intro st
    simp only [runSteps, iterationsRun]
    cases hb : st._running
    · simp only [Bool.false_eq_true, if_false]
      rfl
    · simp only [if_true]
      rw [countRc_append, h1, ih]

/-- C6 is false of the code: `Drone.release` wraps nothing in try/except, so
when the external `streamoff` call raises, the exception propagates past
teardown (first component false) and neither the stop nor the final rc flush
happens: the trace is empty and the axes keep their prior values. -/
theorem C6_counterexample :
    (Drone.release ⟨false, true⟩ ⟨3, 0, 0, 0⟩).1 = false ∧
    countRc (Drone.release ⟨false, true⟩ ⟨3, 0, 0, 0⟩).2.2 = 0 ∧
    (Drone.release ⟨false, true⟩ ⟨3, 0, 0, 0⟩).2.1 ≠ initState := by
  decide

/-- C6 amended: on quit the loop runs `on_exit`, i.e. `Drone.release`; when the
external calls succeed it zeroes all axes and flushes once more before ending
the connection, but teardown errors are not swallowed: a raising `streamoff`
aborts teardown before the stop and final flush, and a raising `end` leaves the
exception to propagate after them. -/
theorem C6_amended (env : ReleaseEnv) (s : DroneState) :
    (env.streamoff_ok = true → env.end_ok = true →
      Drone.release env s =
        (true, initState,
          [Command.streamoff, Command.rc 0 0 0 0, Command.end_connection])) ∧
    (env.streamoff_ok = true → env.end_ok = false →
      Drone.release env s =
        (false, initState, [Command.streamoff, Command.rc 0 0 0 0])) ∧
    (env.streamoff_ok = false → Drone.release env s = (false, s, [])) := by
  obtain ⟨so, eo⟩ := env
  cases so <;> cases eo <;>
    simp [Drone.release, Drone.stop, Drone.update_rc, initState]

theorem C6_amended_witness :
    Drone.release ⟨true, true⟩ ⟨3, 0, 0, 0⟩ =
      (true, initState,
        [Command.streamoff, Command.rc 0 0 0 0, Command.end_connection]) :=
  (C6_amended ⟨true, true⟩ ⟨3, 0, 0, 0⟩).1 rfl rfl

/-- C7 is false of the code: `Info.update` compares `time.localtime().tm_sec`
values, not elapsed time. With the last refresh at 5900 ms the tick at 6000 ms
refreshes although only 100 ms (less than one second) elapsed; with the last
refresh at 0 ms the tick at 60000 ms does not refresh although a full minute
elapsed. -/
theorem C7_counterexample :
    ((Info.update 6000 ⟨tm_sec 5900⟩).2 = true ∧ 6000 - 5900 < 1000) ∧
    ((Info.update 60000 ⟨tm_sec 0⟩).2 = false ∧ 1000 ≤ 60000 - 0) := by
  decide

/-- C7 amended: the telemetry display is refreshed on a tick iff the current
second-of-minute (`tm_sec`) differs from the value stored at the last refresh
(or at init); on refresh the stored value becomes the current `tm_sec`. -/
theorem C7_amended (now_ms : Nat) (st : InfoState) :
    ((Info.update now_ms st).2 = true ↔ tm_sec now_ms ≠ st.last_upd_time) ∧
    (Info.update now_ms st).1.last_upd_time =
      (if tm_sec now_ms ≠ st.last_upd_time then tm_sec now_ms
       else st.last_upd_time) := by
  simp only [Info.update]
  split <;> simp_all

set_option maxRecDepth 8000 in
/-- C8: holding the positive forward key from the all-zero state yields 99
after 33 calls, exactly 100 at the 34th call (34 × 3 = 102 clamped to 100),
and 100 after every further call. -/
theorem C8_ramp :
    (Drone.forward^[33] initState).forward_backward_velocity = 99 ∧
    (Drone.forward^[34] initState).forward_backward_velocity = 100 ∧
    (∀ k : Nat,
      (Drone.forward^[k + 34] initState).forward_backward_velocity = 100) := by
  refine ⟨by decide, by decide, ?_⟩
  intro k
  rw [Function.iterate_add_apply]
  have h34 : Drone.forward^[34] initState = ⟨0, 100, 0, 0⟩ := by decide
  rw [h34]
  have hfix : ∀ j : Nat,
      Drone.forward^[j] (⟨0, 100, 0, 0⟩ : DroneState) = ⟨0, 100, 0, 0⟩ := by
    intro j
    induction j with
    | zero => rfl
    | succ j ih =>
      rw [Function.iterate_succ_apply]
      have hstep : Drone.forward (⟨0, 100, 0, 0⟩ : DroneState) = ⟨0, 100, 0, 0⟩ := by
        decide
      rw [hstep]
      exact ih
  rw [hfix k]
